import Mathlib

/-!
Verification development for the SEFAZ XML distribution client
(`app.py`, `app_v2.py`, `app_corrigido.py`, `app_final.py`).

The Python sources are shallowly embedded: pure fragments become Lean
functions, the HTTP transport and the XML parser are explicit parameters
(oracles), and the places where CPython semantics are genuinely
library-defined (gzip, `float()`, `set` iteration order, `strptime`) are
modelled by clearly documented Lean definitions.  Bytes are `Nat`s below
256; Python strings are Lean `String`s.
-/

namespace Py

/-! ## UTF-8 codec

Model of `str.encode('utf-8')` / `bytes.decode('utf-8')`.  The decoder
rejects overlong forms, surrogates and values above `0x10FFFF`, as
CPython's strict UTF-8 codec does. -/

/-- UTF-8 encoding of a single character. -/
def utf8Char (c : Char) : List Nat :=
  if c.toNat < 0x80 then [c.toNat]
  else if c.toNat < 0x800 then [0xC0 + c.toNat / 64, 0x80 + c.toNat % 64]
  else if c.toNat < 0x10000 then
    [0xE0 + c.toNat / 4096, 0x80 + c.toNat / 64 % 64, 0x80 + c.toNat % 64]
  else
    [0xF0 + c.toNat / 262144, 0x80 + c.toNat / 4096 % 64,
      0x80 + c.toNat / 64 % 64, 0x80 + c.toNat % 64]

/-- UTF-8 encoding of a character list. -/
def utf8EncodeList : List Char → List Nat
  | [] => []
  | c :: cs => utf8Char c ++ utf8EncodeList cs

/-- Model of `s.encode('utf-8')`. -/
def utf8Encode (s : String) : List Nat :=
  utf8EncodeList s.data

/-- Is `b` a UTF-8 continuation byte? -/
def isCont (b : Nat) : Bool := decide (0x80 ≤ b ∧ b < 0xC0)

/-- Decode one UTF-8 sequence from the front; `none` on invalid input. -/
def utf8DecodeChar : List Nat → Option (Char × List Nat)
  | [] => none
  | b :: rest =>
    if b < 0x80 then some (Char.ofNat b, rest)
    else if b < 0xC2 then none
    else if b < 0xE0 then
      match rest with
      | b2 :: rest2 =>
        if isCont b2 then some (Char.ofNat ((b - 0xC0) * 64 + (b2 - 0x80)), rest2)
        else none
      | _ => none
    else if b < 0xF0 then
      match rest with
      | b2 :: b3 :: rest3 =>
        if isCont b2 && isCont b3 then
          if (b - 0xE0) * 4096 + (b2 - 0x80) * 64 + (b3 - 0x80) < 0x800 then none
          else if 0xD800 ≤ (b - 0xE0) * 4096 + (b2 - 0x80) * 64 + (b3 - 0x80)
              ∧ (b - 0xE0) * 4096 + (b2 - 0x80) * 64 + (b3 - 0x80) < 0xE000 then none
          else some (Char.ofNat ((b - 0xE0) * 4096 + (b2 - 0x80) * 64 + (b3 - 0x80)), rest3)
        else none
      | _ => none
    else if b < 0xF5 then
      match rest with
      | b2 :: b3 :: b4 :: rest4 =>
        if isCont b2 && isCont b3 && isCont b4 then
          if (b - 0xF0) * 262144 + (b2 - 0x80) * 4096 + (b3 - 0x80) * 64 + (b4 - 0x80)
              < 0x10000 then none
          else if 0x110000 ≤ (b - 0xF0) * 262144 + (b2 - 0x80) * 4096 + (b3 - 0x80) * 64
              + (b4 - 0x80) then none
          else some (Char.ofNat ((b - 0xF0) * 262144 + (b2 - 0x80) * 4096
            + (b3 - 0x80) * 64 + (b4 - 0x80)), rest4)
        else none
      | _ => none
    else none

/-- Fuelled decoding loop (the fuel is an upper bound on the byte count). -/
def utf8DecodeLoop : Nat → List Nat → Option (List Char)
  | _, [] => some []
  | 0, _ :: _ => none
  | fuel + 1, b :: rest =>
    match utf8DecodeChar (b :: rest) with
    | some (c, resto) => (utf8DecodeLoop fuel resto).map (c :: ·)
    | none => none

/-- Strict UTF-8 decoding; `none` models a raised `UnicodeDecodeError`. -/
def utf8DecodeList (bs : List Nat) : Option (List Char) :=
  utf8DecodeLoop bs.length bs

/-- Model of `bytes.decode('utf-8')` producing a `String`. -/
def utf8Decode (bs : List Nat) : Option String :=
  (utf8DecodeList bs).map (fun cs => ⟨cs⟩)

/-! ## Base64 (`base64.b64encode` / `base64.b64decode`) -/

/-- The standard base64 alphabet. -/
def b64Chars : List Char :=
  "ABCDEFGHIJKLMNOPQRSTUVWXYZabcdefghijklmnopqrstuvwxyz0123456789+/".data

/-- Value `n < 64` to its base64 digit. -/
def encChar (n : Nat) : Char := b64Chars.getD n 'A'

/-- Base64 digit back to its value. -/
def decChar (c : Char) : Option Nat := b64Chars.findIdx? (· == c)

/-- Model of `base64.b64encode` (on bytes, producing the ASCII characters). -/
def b64Encode : List Nat → List Char
  | [] => []
  | [a] => [encChar (a / 4), encChar (a % 4 * 16), '=', '=']
  | [a, b] => [encChar (a / 4), encChar (a % 4 * 16 + b / 16), encChar (b % 16 * 4), '=']
  | a :: b :: c :: rest =>
    encChar (a / 4) :: encChar (a % 4 * 16 + b / 16) :: encChar (b % 16 * 4 + c / 64)
      :: encChar (c % 64) :: b64Encode rest

/-- Model of `base64.b64decode`; `none` models a raised `binascii.Error`. -/
def b64Decode : List Char → Option (List Nat)
  | [] => some []
  | c1 :: c2 :: c3 :: c4 :: rest =>
    match decChar c1, decChar c2 with
    | some v1, some v2 =>
      if c3 = '=' then
        if c4 = '=' ∧ rest = [] then some [v1 * 4 + v2 / 16] else none
      else
        match decChar c3 with
        | some v3 =>
          if c4 = '=' then
            if rest = [] then some [v1 * 4 + v2 / 16, v2 % 16 * 16 + v3 / 4] else none
          else
            match decChar c4 with
            | some v4 =>
              match b64Decode rest with
              | some bs =>
                some ((v1 * 4 + v2 / 16) :: (v2 % 16 * 16 + v3 / 4)
                  :: (v3 % 4 * 64 + v4) :: bs)
              | none => none
            | none => none
        | none => none
    | _, _ => none
  | _ => none

/-! ## gzip model

Real DEFLATE is outside the scope of a shallow embedding; the `gzip`
library is modelled by a pair of functions in which a compressed stream is
the two gzip magic bytes followed by the payload, and decompression fails
(`none`, modelling the raised exception) exactly when the magic bytes are
absent.  Only the round-trip property and the failure on non-gzip data are
relied on, matching how `app.py` uses the library. -/

def gzipMagic : List Nat := [0x1F, 0x8B]

/-- Model of `gzip.compress`. -/
def gzipCompress (bs : List Nat) : List Nat := gzipMagic ++ bs

/-- Model of `gzip.decompress`; `none` models the raised `BadGzipFile`. -/
def gzipDecompress (bs : List Nat) : Option (List Nat) :=
  if bs.take 2 = gzipMagic then some (bs.drop 2) else none

/-! ## `float()` model

Model of Python `float(text)` restricted to the plain decimal forms that
the fiscal documents carry (optional sign, digits, optional fractional
part); exponents, `inf`/`nan`, underscores and surrounding whitespace are
not modelled.  The result is an exact rational. -/

def digitsToNat (cs : List Char) : Nat :=
  cs.foldl (fun n c => n * 10 + (c.toNat - 48)) 0

def pyFloat (s : String) : Option Rat :=
  let corpo : Bool × List Char :=
    match s.data with
    | '-' :: r => (true, r)
    | '+' :: r => (false, r)
    | cs => (false, cs)
  let intPart := corpo.2.takeWhile (·.isDigit)
  let resto := corpo.2.dropWhile (·.isDigit)
  let valor? : Option Rat :=
    match resto with
    | [] => if intPart.isEmpty then none else some (digitsToNat intPart : Rat)
    | '.' :: frac =>
      if frac.all (·.isDigit) ∧ (¬ intPart.isEmpty ∨ ¬ frac.isEmpty) then
        some ((digitsToNat intPart : Rat)
          + (digitsToNat frac : Rat) / (10 ^ frac.length : Rat))
      else none
    | _ => none
  valor?.map (fun v => if corpo.1 then -v else v)

/-! ## `datetime.strptime(s, "%Y-%m-%d")` model

`%Y` accepts one to four digits (year 1..9999), `%m`/`%d` one or two
digits, and the day is validated against the month length including leap
years, as CPython does.  `none` models the raised `ValueError`. -/

def parseNat? (cs : List Char) : Option Nat :=
  if ¬ cs.isEmpty ∧ cs.all (·.isDigit) then some (digitsToNat cs) else none

/-- Split a character list on a separator character (the semantics of
`s.split(sep)` for a one-character separator). -/
def splitOnChar (c : Char) : List Char → List (List Char)
  | [] => [[]]
  | x :: xs =>
    match splitOnChar c xs with
    | [] => [[]]
    | grp :: resto => if x = c then [] :: grp :: resto else (x :: grp) :: resto

def bissexto (y : Nat) : Bool := decide (y % 4 = 0 ∧ (y % 100 ≠ 0 ∨ y % 400 = 0))

def diasNoMes (y m : Nat) : Nat :=
  if m = 2 then (if bissexto y then 29 else 28)
  else if m = 4 ∨ m = 6 ∨ m = 9 ∨ m = 11 then 30
  else 31

def strptimeYmd (s : String) : Option (Nat × Nat × Nat) :=
  match splitOnChar '-' s.data with
  | [ys, ms, ds] =>
    match parseNat? ys, parseNat? ms, parseNat? ds with
    | some y, some m, some d =>
      if ys.length ≤ 4 ∧ ms.length ≤ 2 ∧ ds.length ≤ 2 ∧ 1 ≤ y ∧ y ≤ 9999
          ∧ 1 ≤ m ∧ m ≤ 12 ∧ 1 ≤ d ∧ d ≤ diasNoMes y m then
        some (y, m, d)
      else none
    | _, _, _ => none
  | _ => none

/-! ## String helpers -/

/-- Model of Python's substring test `sub in s` (over char lists). -/
def isSubstring : List Char → List Char → Bool
  | sub, [] => sub.isEmpty
  | sub, c :: rest => sub.isPrefixOf (c :: rest) || isSubstring sub rest

/-- Model of `sub in s` for strings. -/
def pyContains (s sub : String) : Bool := isSubstring sub.data s.data

/-- Model of `s.replace(c, '')` for a single-character pattern. -/
def pyRemoveChar (s : String) (c : Char) : String := ⟨s.data.filter (· ≠ c)⟩

/-! ## `list(set(xs))` model

CPython enumerates a `set` in hash-table order, which is unspecified (and,
for strings, randomized across interpreter runs).  `list(set(xs))` is
therefore modelled by an arbitrary enumeration function `f` constrained by
`pySetOk f`: the output holds exactly the distinct members of the input,
each once, in some order. -/

def pySetOk (f : List String → List String) : Prop :=
  ∀ l, (f l).Nodup ∧ ∀ k, k ∈ f l ↔ k ∈ l

/-- First-occurrence-kept deduplication, written from the spec's words
("if two raw records share a key, the first encountered is kept, stable,
order-preserving"), for comparison with the set-based code. -/
def dedup_primeira_aux (vistos : List String) : List String → List String
  | [] => []
  | x :: xs =>
    if x ∈ vistos then dedup_primeira_aux vistos xs
    else x :: dedup_primeira_aux (x :: vistos) xs

def dedup_primeira (l : List String) : List String := dedup_primeira_aux [] l

/-- A second admissible enumeration order for `list(set(xs))`: reversed. -/
def pySet_reverso (l : List String) : List String := (dedup_primeira l).reverse

end Py

/-! ## XML element model

`xml.etree.ElementTree` elements: a tag (namespaced tags carry the
`\x7buri\x7d` prefix exactly as ElementTree renders them), attributes,
text and children.  Parsing a string into such a tree
(`ET.fromstring`) is the external XML library; it appears throughout as
an explicit oracle parameter `parseXml : String → Option Xml`, `none`
modelling a raised `ParseError`. -/

inductive Xml where
  | elem (tag : String) (attrs : List (String × String)) (text : Option String)
      (children : List Xml)

def Xml.tag : Xml → String
  | .elem t _ _ _ => t

def Xml.attrs : Xml → List (String × String)
  | .elem _ a _ _ => a

def Xml.text : Xml → Option String
  | .elem _ _ t _ => t

def Xml.children : Xml → List Xml
  | .elem _ _ _ cs => cs

mutual

/-- All proper descendants of an element, in document (preorder) order. -/
def Xml.descendants : Xml → List Xml
  | .elem _ _ _ cs => descendantsList cs

def descendantsList : List Xml → List Xml
  | [] => []
  | c :: resto => c :: (Xml.descendants c ++ descendantsList resto)

end

/-- Model of `root.findall('.//tag')`: matching descendants in document order. -/
def Xml.findall (x : Xml) (t : String) : List Xml :=
  x.descendants.filter (fun e => e.tag == t)

/-- Model of `root.find('.//tag')`: first matching descendant or `None`. -/
def Xml.find? (x : Xml) (t : String) : Option Xml :=
  (x.findall t).head?

/-- Model of `root.find('.//t1/t2')`: first `t2` child of a `t1` descendant. -/
def Xml.findPath? (x : Xml) (t1 t2 : String) : Option Xml :=
  ((x.findall t1).flatMap (fun e => e.children.filter (fun c => c.tag == t2))).head?

/-- Model of `elem.get(attr)`. -/
def Xml.get? (x : Xml) (attr : String) : Option String :=
  (x.attrs.find? (fun p => p.1 == attr)).map (·.2)

/-- The NF-e namespace URI used by all the source files. -/
def nfeNs : String := "http://www.portalfiscal.inf.br/nfe"

/-- Qualified tag in the NF-e namespace, as ElementTree spells it. -/
def ns (t : String) : String := "\x7b" ++ nfeNs ++ "\x7d" ++ t

namespace AppPy

/-! ## Embedding of `app.py`

The transport (`requests.post`) is the `Transporte` argument: either a
network failure (`requests.exceptions.RequestException`) or a response
with an HTTP status and a body.  The per-key lookup
(`consultar_nfe_por_chave`, itself a network interaction returning the
extracted NF-e XML or `None`) is the `lookup` oracle.  Certificate
loading is external (`cryptography` library) and modelled as having
succeeded; nothing in the claims below depends on it. -/

/-- The record built by `extrair_info_nfe` (`app.py` lines 500-508).
Fields of type `Option String` model Python values that are either a
string or `None` (an element found with no text yields `None`; an absent
element yields `""`). -/
structure InfoNota where
  chave : String
  numero : Option String
  dataEmissao : Option String
  fornecedorCNPJ : Option String
  fornecedorNome : Option String
  valorTotal : Rat
  xmlContent : String
deriving DecidableEq

/-- The JSON object returned by `consultar_notas_recebidas`. -/
structure Resposta where
  success : Bool
  notas : List InfoNota
  totalConsultado : Nat
  totalErros : Nat
  totalSalvo : Nat
  resumo : String
  detalhes : List String
deriving DecidableEq

/-- A FastAPI `HTTPException`. -/
structure HttpError where
  status : Nat
  detail : String
deriving DecidableEq

/-- Outcome of one `requests.post`. -/
inductive Transporte where
  | falhaRede
  | resposta (status : Nat) (corpo : String)

/-- `extrair_info_nfe` (`app.py` lines 483-511).  Any exception inside the
`try` (parse failure, `float()` on a bad or absent text) yields `None`. -/
def extrair_info_nfe (parseXml : String → Option Xml) (xml_content chave : String) :
    Option InfoNota :=
  match parseXml xml_content with
  | none => none
  | some root =>
    let data_emissao := root.find? (ns "dhEmi")
    let emit_cnpj := root.findPath? (ns "emit") (ns "CNPJ")
    let emit_nome := root.findPath? (ns "emit") (ns "xNome")
    let valor_nf := root.find? (ns "vNF")
    let numero_nf := root.find? (ns "nNF")
    let textoOu : Option Xml → Option String := fun o =>
      match o with
      | none => some ""
      | some e => e.text
    match valor_nf with
    | none =>
      some { chave := chave, numero := textoOu numero_nf,
             dataEmissao := textoOu data_emissao,
             fornecedorCNPJ := textoOu emit_cnpj, fornecedorNome := textoOu emit_nome,
             valorTotal := 0, xmlContent := xml_content }
    | some v =>
      match v.text with
      | none => none
      | some t =>
        match Py.pyFloat t with
        | none => none
        | some q =>
          some { chave := chave, numero := textoOu numero_nf,
                 dataEmissao := textoOu data_emissao,
                 fornecedorCNPJ := textoOu emit_cnpj, fornecedorNome := textoOu emit_nome,
                 valorTotal := q, xmlContent := xml_content }

/-- The docZip payload decoding steps of `app.py` lines 385-392:
base64-decode, try gzip decompression, fall back to the plain bytes;
either way the bytes are UTF-8 decoded. -/
def conteudo_xml_de (conteudo_bytes : List Nat) : Option String :=
  match Py.gzipDecompress conteudo_bytes with
  | some descomprimido =>
    match Py.utf8Decode descomprimido with
    | some s => some s
    | none => Py.utf8Decode conteudo_bytes
  | none => Py.utf8Decode conteudo_bytes

/-- Full decode of one docZip text node (`app.py` lines 382-392); `none`
models any exception caught by the per-docZip `except`. -/
def decodificar_docZip (conteudo_b64 : String) : Option String :=
  match Py.b64Decode conteudo_b64.data with
  | none => none
  | some conteudo_bytes => conteudo_xml_de conteudo_bytes

/-- Key extracted from one docZip entry (`app.py` lines 379-405).  Note the
source's `find('.//chNFe') or find('.//nfe:chNFe', ns)`: an ElementTree
element with no children is falsy, so the namespaced lookup wins unless
the first hit has children. -/
def chave_de_docZip (parseXml : String → Option Xml) (doc_zip : Xml) : Option String :=
  match doc_zip.text with
  | none => none
  | some conteudo_b64 =>
    if conteudo_b64 = "" then none
    else
      match decodificar_docZip conteudo_b64 with
      | none => none
      | some conteudo_xml =>
        match parseXml conteudo_xml with
        | none => none
        | some xml_interno =>
          let f1 := xml_interno.find? "chNFe"
          let f2 := xml_interno.find? (ns "chNFe")
          let chave_elem :=
            match f1 with
            | some e => if e.children.isEmpty then f2 else some e
            | none => f2
          match chave_elem with
          | none => none
          | some e =>
            match e.text with
            | none => none
            | some t => if t = "" then none else some t

/-- The key-collection phase of `extrair_chaves_manifestacao` (`app.py`
lines 374-416), before duplicate removal: docZip keys then resNFe
attribute keys, in document order. -/
def coletar_chaves (parseXml : String → Option Xml) (root : Xml) : List String :=
  let doc_zips := root.findall "docZip" ++ root.findall (ns "docZip")
  let chaves_docZip := doc_zips.filterMap (chave_de_docZip parseXml)
  let resumos := root.findall "resNFe" ++ root.findall (ns "resNFe")
  let chaves_resumo := resumos.filterMap (fun r =>
    match r.get? "chNFe" with
    | some a => if a = "" then none else some a
    | none => none)
  chaves_docZip ++ chaves_resumo

/-- `extrair_chaves_manifestacao` (`app.py` lines 351-438).  The final
`chaves = list(set(chaves))` is the enumeration function `pySet`
(see `Py.pySetOk`); a top-level parse failure is caught and yields `[]`. -/
def extrair_chaves_manifestacao (pySet : List String → List String)
    (parseXml : String → Option Xml) (response_xml : String) : List String :=
  match parseXml response_xml with
  | none => []
  | some root => pySet (coletar_chaves parseXml root)

/-- UF code selection (`app.py` lines 197-202). -/
def codigo_uf (estado : String) : String :=
  if estado = "SP" then "35" else if estado = "SC" then "42" else "35"

def xml_consulta_parte1 : String :=
  "<?xml version=\"1.0\" encoding=\"UTF-8\"?>\n<soap:Envelope xmlns:soap=\"http://www.w3.org/2003/05/soap-envelope\" xmlns:nfe=\"http://www.portalfiscal.inf.br/nfe/wsdl/NFeDistribuicaoDFe\">\n    <soap:Header/>\n    <soap:Body>\n        <nfe:nfeDistDFeInteresse>\n            <nfe:nfeDadosMsg>\n                <distDFeInt xmlns=\"http://www.portalfiscal.inf.br/nfe\" versao=\"1.01\">\n                    <tpAmb>1</tpAmb>\n                    <cUFAutor>"

def xml_consulta_parte2 : String :=
  "</cUFAutor>\n                    <CNPJ>"

def xml_consulta_parte3 : String :=
  "</CNPJ>\n                    <consNSU>\n                        "

/-- The hardcoded starting sequence number element of the enumeration
request (`app.py` line 216). -/
def nsu_inicial : String := "<NSU>000000000000000</NSU>"

def xml_consulta_parte4 : String :=
  "\n                    </consNSU>\n                </distDFeInt>\n            </nfe:nfeDadosMsg>\n        </nfe:nfeDistDFeInteresse>\n    </soap:Body>\n</soap:Envelope>"

/-- The SOAP body built by `consultar_manifestacao_destinatario`
(`app.py` lines 205-222). -/
def montar_xml_consulta (codigo cnpj_empresa : String) : String :=
  xml_consulta_parte1 ++ codigo ++ xml_consulta_parte2 ++ cnpj_empresa
    ++ xml_consulta_parte3 ++ nsu_inicial ++ xml_consulta_parte4

/-- The sequence of SOAP request bodies one call of
`consultar_manifestacao_destinatario` sends (`app.py` lines 233-240):
exactly one `requests.post`; the response `t` is received but no code
path issues a further request (there is no pagination loop in the
source). -/
def consultar_manifestacao_requisicoes (cnpj_empresa estado : String) (t : Transporte) :
    List String :=
  [montar_xml_consulta (codigo_uf estado) cnpj_empresa]

/-- `consultar_manifestacao_destinatario` (`app.py` lines 169-271).
A date that `strptime` rejects, a network failure, a non-200 status and
an unparseable body all return `[]`. -/
def consultar_manifestacao_destinatario (pySet : List String → List String)
    (parseXml : String → Option Xml)
    (cnpj_empresa data_inicio data_fim estado : String) (t : Transporte) : List String :=
  if (Py.strptimeYmd data_inicio).isNone ∨ (Py.strptimeYmd data_fim).isNone then []
  else
    match t with
    | .falhaRede => []
    | .resposta status corpo =>
      if status ≠ 200 then []
      else extrair_chaves_manifestacao pySet parseXml corpo

/-- One iteration of the download loop (`app.py` lines 118-138) for one
key: `none` means the error counter is incremented, `some` means the
record is appended.  `lookup` is `consultar_nfe_por_chave` (network; it
returns the NF-e XML string or `None` and never raises). -/
def resultado_chave (parseXml : String → Option Xml) (lookup : String → Option String)
    (chave : String) : Option InfoNota :=
  match lookup chave with
  | none => none
  | some xml_completo =>
    if xml_completo = "" then none
    else extrair_info_nfe parseXml xml_completo chave

/-- The download loop (`app.py` lines 115-138): accumulated records in
order, and the error count. -/
def processar_chaves (parseXml : String → Option Xml) (lookup : String → Option String) :
    List String → List InfoNota × Nat
  | [] => ([], 0)
  | chave :: resto =>
    let r := processar_chaves parseXml lookup resto
    match resultado_chave parseXml lookup chave with
    | some info => (info :: r.1, r.2)
    | none => (r.1, r.2 + 1)

/-- The response construction of `consultar_notas_recebidas`
(`app.py` lines 99-153), given the keys the enumeration produced. -/
def montar_resposta (parseXml : String → Option Xml) (lookup : String → Option String)
    (chaves_encontradas : List String) (data_inicio data_fim cnpj_limpo : String) :
    Resposta :=
  if chaves_encontradas.isEmpty then
    { success := true, notas := [], totalConsultado := 0, totalErros := 0, totalSalvo := 0,
      resumo := "Nenhuma nota fiscal encontrada na Manifestação do Destinatário",
      detalhes := ["Período consultado: " ++ data_inicio ++ " a " ++ data_fim,
        "CNPJ consultado: " ++ cnpj_limpo] }
  else
    let r := processar_chaves parseXml lookup chaves_encontradas
    { success := true, notas := r.1,
      totalConsultado := chaves_encontradas.length, totalErros := r.2,
      totalSalvo := r.1.length,
      resumo := "Fluxo completo: " ++ toString chaves_encontradas.length ++ " chaves → "
        ++ toString r.1.length ++ " XMLs baixados",
      detalhes := ["Manifestação: " ++ toString chaves_encontradas.length
          ++ " chaves encontradas",
        "Consulta NF-e: " ++ toString r.1.length ++ " XMLs baixados com sucesso",
        "Erros: " ++ toString r.2,
        "CNPJ: " ++ cnpj_limpo] }

/-- CNPJ cleaning (`app.py` line 62): strip `.`, `/`, `-`. -/
def limpar_cnpj (s : String) : String :=
  Py.pyRemoveChar (Py.pyRemoveChar (Py.pyRemoveChar s '.') '/') '-'

/-- The endpoint `consultar_notas_recebidas` (`app.py` lines 37-167):
input validation, then enumeration, then the download loop and response.
Certificate processing (lines 68-88, external `cryptography` library) is
modelled as having succeeded. -/
def consultar_notas_recebidas (pySet : List String → List String)
    (parseXml : String → Option Xml) (lookup : String → Option String)
    (cnpj_empresa data_inicio data_fim estado : String) (t : Transporte) :
    Except HttpError Resposta :=
  if cnpj_empresa = "" ∨ (limpar_cnpj cnpj_empresa).length ≠ 14 then
    .error { status := 400, detail := "CNPJ inválido" }
  else
    let cnpj_limpo := limpar_cnpj cnpj_empresa
    let chaves_encontradas :=
      consultar_manifestacao_destinatario pySet parseXml cnpj_limpo data_inicio data_fim
        estado t
    .ok (montar_resposta parseXml lookup chaves_encontradas data_inicio data_fim cnpj_limpo)

/-- Success flag of an endpoint outcome (`none` when it was an
`HTTPException`). -/
def respSuccess : Except HttpError Resposta → Option Bool
  | .ok r => some r.success
  | .error _ => none

/-- Record count of an endpoint outcome. -/
def respNotasLen : Except HttpError Resposta → Option Nat
  | .ok r => some r.notas.length
  | .error _ => none

end AppPy

/-- The access key hardcoded in the simulation branches of
`app_corrigido.py`, `app_final.py` and `app_v2.py`. -/
def chave_w3e : String := "42250914309992000148550010040830921915351968"

namespace AppCorrigido

/-! ## Embedding of `app_corrigido.py`

Its `consultar_manifestacao_destinatario` and `consultar_nfe_por_chave`
perform no network interaction at all: they are pure functions of their
string arguments (the certificate paths and region are received and
ignored). -/

def xml_simulado_parte1 : String :=
  "<?xml version=\"1.0\" encoding=\"UTF-8\"?>
<nfeProc xmlns=\"http://www.portalfiscal.inf.br/nfe\">
    <NFe>
        <infNFe Id=\"NFe"

def xml_simulado_parte2 : String :=
  "\">
            <ide>
                <cUF>42</cUF>
                <cNF>19153519</cNF>
                <natOp>VDA MERC ADQ TERCEIROS C/PIS/COFINS-NORMAL</natOp>
                <mod>55</mod>
                <serie>1</serie>
                <nNF>4083092</nNF>
                <dhEmi>2025-09-02T22:00:25-03:00</dhEmi>
                <tpNF>1</tpNF>
                <idDest>2</idDest>
                <cMunFG>4205407</cMunFG>
                <tpImp>1</tpImp>
                <tpEmis>1</tpEmis>
                <cDV>8</cDV>
                <tpAmb>1</tpAmb>
                <finNFe>1</finNFe>
                <indFinal>0</indFinal>
                <indPres>0</indPres>
            </ide>
            <emit>
                <CNPJ>14309992000148</CNPJ>
                <xNome>WEG DRIVES &amp; CONTROLS - AUTOMACAO L</xNome>
                <enderEmit>
                    <xLgr>RUA WEG</xLgr>
                    <nro>1000</nro>
                    <xBairro>JARAGA DO SUL</xBairro>
                    <cMun>4208906</cMun>
                    <xMun>JARAGA DO SUL</xMun>
                    <UF>SC</UF>
                    <CEP>89256000</CEP>
                </enderEmit>
                <IE>256520801</IE>
            </emit>
            <dest>
                <CNPJ>58521876000163</CNPJ>
                <xNome>W3E SOLUCOES LTDA</xNome>
                <enderDest>
                    <xLgr>RUA W3E</xLgr>
                    <nro>456</nro>
                    <xBairro>CHAPECO</xBairro>
                    <cMun>4204202</cMun>
                    <xMun>CHAPECO</xMun>
                    <UF>SC</UF>
                    <CEP>89802000</CEP>
                </enderDest>
                <IE>6179</IE>
            </dest>
            <det nItem=\"1\">
                <prod>
                    <cProd>A</cProd>
                    <xProd>PRODUTO EXEMPLO</xProd>
                    <NCM>85371000</NCM>
                    <CFOP>6102</CFOP>
                    <uCom>UN</uCom>
                    <qCom>1.0000</qCom>
                    <vUnCom>1539.38</vUnCom>
                    <vProd>1539.38</vProd>
                </prod>
            </det>
            <total>
                <ICMSTot>
                    <vBC>0.00</vBC>
                    <vICMS>0.00</vICMS>
                    <vICMSDeson>0.00</vICMSDeson>
                    <vFCP>0.00</vFCP>
                    <vBCST>0.00</vBCST>
                    <vST>0.00</vST>
                    <vFCPST>0.00</vFCPST>
                    <vFCPSTRet>0.00</vFCPSTRet>
                    <vProd>1539.38</vProd>
                    <vFrete>0.00</vFrete>
                    <vSeg>0.00</vSeg>
                    <vDesc>0.00</vDesc>
                    <vII>0.00</vII>
                    <vIPI>0.00</vIPI>
                    <vIPIDevol>0.00</vIPIDevol>
                    <vPIS>0.00</vPIS>
                    <vCOFINS>0.00</vCOFINS>
                    <vOutro>0.00</vOutro>
                    <vNF>1689.47</vNF>
                </ICMSTot>
            </total>
        </infNFe>
    </NFe>
    <protNFe>
        <infProt>
            <tpAmb>1</tpAmb>
            <verAplic>SP_NFE_PL_008i2</verAplic>
            <chNFe>"

def xml_simulado_parte3 : String :=
  "</chNFe>
            <dhRecbto>2025-09-02T22:01:34-03:00</dhRecbto>
            <nProt>242250340014564</nProt>
            <digVal>0hCXCRgSVH+9pPHMQTJhI8fY=</digVal>
            <cStat>100</cStat>
            <xMotivo>Autorizado o uso da NF-e</xMotivo>
        </infProt>
    </protNFe>
</nfeProc>"

/-- The canned NF-e document of `app_corrigido.py` lines 199-299 (an
f-string interpolating the access key twice). -/
def xml_simulado (chave_acesso : String) : String :=
  xml_simulado_parte1 ++ chave_acesso ++ xml_simulado_parte2 ++ chave_acesso
    ++ xml_simulado_parte3

/-- `consultar_manifestacao_destinatario` (`app_corrigido.py` lines
162-187): pure simulation, no transport. -/
def consultar_manifestacao_destinatario
    (cnpj_empresa data_inicio data_fim cert_path key_path estado : String) : List String :=
  if cnpj_empresa = "58521876000163" ∧ Py.pyContains data_inicio "2025-09" = true then
    [chave_w3e]
  else []

/-- `consultar_nfe_por_chave` (`app_corrigido.py` lines 189-306): pure
simulation, no transport. -/
def consultar_nfe_por_chave (chave_acesso cert_path key_path estado : String) :
    Option String :=
  if chave_acesso = chave_w3e then some (xml_simulado chave_acesso) else none

end AppCorrigido

namespace AppV2

/-- The validation prefix of `app_v2.py`'s `consultar_notas_recebidas`
(lines 51-63): the CNPJ length check, then `strptime` on both dates.
`some err` models the raised `HTTPException`; `none` means validation
passed and control proceeds to certificate handling.  The CNPJ cleaning
is the same `replace` chain as `app.py`'s (`AppPy.limpar_cnpj`). -/
def validacao (cnpj_empresa data_inicio data_fim : String) : Option AppPy.HttpError :=
  if cnpj_empresa = "" ∨ (AppPy.limpar_cnpj cnpj_empresa).length ≠ 14 then
    some { status := 400, detail := "CNPJ inválido" }
  else if (Py.strptimeYmd data_inicio).isNone ∨ (Py.strptimeYmd data_fim).isNone then
    some { status := 400, detail := "Formato de data inválido. Use YYYY-MM-DD" }
  else none

end AppV2

/-! ## Concrete fixtures

Concrete oracles and documents used to evaluate the embedded code at
specific inputs: parse oracles are finite tables from raw strings to the
trees ElementTree would produce for them. -/

/-- A parse oracle that parses nothing. -/
def pXnone : String → Option Xml := fun _ => none

/-- A lookup oracle on which every download fails. -/
def lookupNone : String → Option String := fun _ => none

/-- A minimal parsed NF-e document whose emission timestamp is `d`. -/
def docDe (d : String) : Xml :=
  .elem (ns "nfeProc") [] none [.elem (ns "dhEmi") [] (some d) []]

/-- Parse oracle for four documents dated around September 2025. -/
def pX1 : String → Option Xml := fun s =>
  if s = "doc1" then some (docDe "2025-08-31T10:00:00-03:00")
  else if s = "doc2" then some (docDe "2025-09-01T10:00:00-03:00")
  else if s = "doc3" then some (docDe "2025-09-30T10:00:00-03:00")
  else if s = "doc4" then some (docDe "2025-10-01T10:00:00-03:00")
  else none

/-- Lookup oracle delivering the four dated documents. -/
def lookup1 : String → Option String := fun c =>
  if c = "k1" then some "doc1"
  else if c = "k2" then some "doc2"
  else if c = "k3" then some "doc3"
  else if c = "k4" then some "doc4"
  else none

/-- A parsed `resNFe` summary element carrying an access key attribute. -/
def resNFe_de (k : String) : Xml := .elem "resNFe" [("chNFe", k)] none []

/-- A second 44-digit access key. -/
def chave_outra : String := "42250911111111000111550010000000011111111111"

/-- A parsed enumeration response listing `chave_w3e` twice around
`chave_outra`. -/
def raiz_resposta_dupla : Xml :=
  .elem "retDistDFeInt" [] none
    [resNFe_de chave_w3e, resNFe_de chave_outra, resNFe_de chave_w3e]

/-- Parse oracle for the duplicate-key enumeration response. -/
def pX2 : String → Option Xml := fun s =>
  if s = "respDupla" then some raiz_resposta_dupla else none

/-- A well-formed document whose `vNF` text is not a number. -/
def doc_vnf_ruim : Xml :=
  .elem (ns "nfeProc") [] none [.elem (ns "vNF") [] (some "abc") []]

/-- Parse oracle knowing one good document and the bad-value one. -/
def pX6 : String → Option Xml := fun s =>
  if s = "bom" then some (docDe "2025-09-02T10:00:00-03:00")
  else if s = "ruim" then some doc_vnf_ruim
  else none

/-- Lookup oracle delivering the bad-value document for key `K`. -/
def lookup6 : String → Option String := fun c =>
  if c = "K" then some "ruim" else none

/-- Lookup oracle mixing one unparseable and one good document. -/
def lookup6b : String → Option String := fun c =>
  if c = "a" then some "naoparse" else if c = "b" then some "bom" else none

/-- An enumeration response body whose pagination fields say more data
remains (`ultNSU` below `maxNSU`). -/
def corpo_mais_dados : String :=
  "<retDistDFeInt><cStat>138</cStat><ultNSU>000000000000010</ultNSU><maxNSU>000000000000050</maxNSU></retDistDFeInt>"

/-- Does the document's total-value element, when present, carry numeric
text?  (`extrair_info_nfe` raises out of `float()` exactly when this is
false for a parsed document.) -/
def vnfOkB (root : Xml) : Bool :=
  match root.find? (ns "vNF") with
  | none => true
  | some v =>
    match v.text with
    | none => false
    | some t => (Py.pyFloat t).isSome

/-- Did the downloaded document for `chave` fail XML parsing (or fail to
download at all)? -/
def docMalformadoB (parseXml : String → Option Xml) (lookup : String → Option String)
    (chave : String) : Bool :=
  match lookup chave with
  | some raw => (parseXml raw).isNone
  | none => true

/-! ## Library-model lemmas -/

namespace Py

theorem utf8DecodeChar_enc (c : Char) (tail : List Nat) :
    utf8DecodeChar (utf8Char c ++ tail) = some (c, tail) := by
  have hv : c.toNat < 0xD800 ∨ (0xDFFF < c.toNat ∧ c.toNat < 0x110000) := c.valid
  rw [utf8Char]
  by_cases h1 : c.toNat < 0x80
  · rw [if_pos h1]
    simp only [List.cons_append, List.nil_append, utf8DecodeChar]
    rw [if_pos h1, Char.ofNat_toNat]
  · rw [if_neg h1]
    by_cases h2 : c.toNat < 0x800
    · rw [if_pos h2]
      simp only [List.cons_append, List.nil_append, utf8DecodeChar]
      rw [if_neg (by omega), if_neg (by omega), if_pos (by omega),
        if_pos (by simp only [isCont, decide_eq_true_eq]; omega)]
      have hn : (0xC0 + c.toNat / 64 - 0xC0) * 64 + (0x80 + c.toNat % 64 - 0x80)
          = c.toNat := by omega
      rw [hn, Char.ofNat_toNat]
    · rw [if_neg h2]
      by_cases h3 : c.toNat < 0x10000
      · rw [if_pos h3]
        simp only [List.cons_append, List.nil_append, utf8DecodeChar]
        rw [if_neg (by omega), if_neg (by omega), if_neg (by omega), if_pos (by omega),
          if_pos (by
            simp only [isCont, Bool.and_eq_true, decide_eq_true_eq]
            omega)]
        have hn : (0xE0 + c.toNat / 4096 - 0xE0) * 4096
            + (0x80 + c.toNat / 64 % 64 - 0x80) * 64 + (0x80 + c.toNat % 64 - 0x80)
            = c.toNat := by omega
        rw [hn, if_neg (by omega), if_neg (by omega), Char.ofNat_toNat]
      · rw [if_neg h3]
        simp only [List.cons_append, List.nil_append, utf8DecodeChar]
        rw [if_neg (by omega), if_neg (by omega), if_neg (by omega), if_neg (by omega),
          if_pos (by omega),
          if_pos (by
            simp only [isCont, Bool.and_eq_true, decide_eq_true_eq]
            omega)]
        have hn : (0xF0 + c.toNat / 262144 - 0xF0) * 262144
            + (0x80 + c.toNat / 4096 % 64 - 0x80) * 4096
            + (0x80 + c.toNat / 64 % 64 - 0x80) * 64 + (0x80 + c.toNat % 64 - 0x80)
            = c.toNat := by omega
        rw [hn, if_neg (by omega), if_neg (by omega), Char.ofNat_toNat]

theorem utf8Char_length_pos (c : Char) : 0 < (utf8Char c).length := by
  rw [utf8Char]
  split_ifs <;> simp

theorem utf8Loop_enc (cs : List Char) : ∀ fuel, (utf8EncodeList cs).length ≤ fuel →
    utf8DecodeLoop fuel (utf8EncodeList cs) = some cs := by
  induction cs with
  | nil =>
    intro fuel _
    cases fuel <;> rfl
  | cons c cs ih =>
    intro fuel hfuel
    have hlen : (utf8EncodeList (c :: cs)).length
        = (utf8Char c).length + (utf8EncodeList cs).length := by
      rw [utf8EncodeList, List.length_append]
    have hpos := utf8Char_length_pos c
    cases fuel with
    | zero => omega
    | succ f =>
      obtain ⟨b, bs, hb⟩ : ∃ b bs, utf8Char c = b :: bs := by
        cases hc : utf8Char c with
        | nil => rw [hc] at hpos; cases hpos
        | cons b bs => exact ⟨b, bs, rfl⟩
      have hstep : utf8EncodeList (c :: cs) = b :: (bs ++ utf8EncodeList cs) := by
        rw [utf8EncodeList, hb, List.cons_append]
      rw [hstep, utf8DecodeLoop, ← List.cons_append, ← hb, utf8DecodeChar_enc]
      simp only [ih f (by omega), Option.map_some']

theorem utf8_roundtrip_list (cs : List Char) :
    utf8DecodeList (utf8EncodeList cs) = some cs :=
  utf8Loop_enc cs _ le_rfl

theorem utf8_roundtrip (s : String) : utf8Decode (utf8Encode s) = some s := by
  rw [utf8Encode, utf8Decode, utf8_roundtrip_list]
  rfl

theorem utf8Char_lt_256 (c : Char) : ∀ b ∈ utf8Char c, b < 256 := by
  have hv : c.toNat < 0xD800 ∨ (0xDFFF < c.toNat ∧ c.toNat < 0x110000) := c.valid
  intro b hb
  rw [utf8Char] at hb
  split_ifs at hb with h1 h2 h3
  · simp only [List.mem_singleton] at hb
    omega
  · simp only [List.mem_cons, List.not_mem_nil, or_false] at hb
    rcases hb with h | h <;> omega
  · simp only [List.mem_cons, List.not_mem_nil, or_false] at hb
    rcases hb with h | h | h <;> omega
  · simp only [List.mem_cons, List.not_mem_nil, or_false] at hb
    rcases hb with h | h | h | h <;> omega

theorem utf8Encode_lt_256 (s : String) : ∀ b ∈ utf8Encode s, b < 256 := by
  rw [utf8Encode]
  induction s.data with
  | nil => intro b hb; cases hb
  | cons c cs ih =>
    intro b hb
    rw [utf8EncodeList, List.mem_append] at hb
    rcases hb with h | h
    · exact utf8Char_lt_256 c b h
    · exact ih b h

theorem dec_enc : ∀ n < 64, decChar (encChar n) = some n := by decide

theorem enc_ne_pad : ∀ n < 64, encChar n ≠ '=' := by decide

theorem b64_roundtrip : ∀ bs : List Nat, (∀ x ∈ bs, x < 256) →
    b64Decode (b64Encode bs) = some bs
  | [], _ => rfl
  | [a], h => by
    have ha : a < 256 := h a (by simp)
    simp only [b64Encode, b64Decode, dec_enc (a / 4) (by omega),
      dec_enc (a % 4 * 16) (by omega), and_self, ite_true]
    have hx : a / 4 * 4 + a % 4 * 16 / 16 = a := by omega
    rw [hx]
  | [a, b], h => by
    have ha : a < 256 := h a (by simp)
    have hb : b < 256 := h b (by simp)
    simp only [b64Encode, b64Decode, dec_enc (a / 4) (by omega),
      dec_enc (a % 4 * 16 + b / 16) (by omega), dec_enc (b % 16 * 4) (by omega),
      enc_ne_pad (b % 16 * 4) (by omega), and_self, ite_true, ite_false]
    have hx : a / 4 * 4 + (a % 4 * 16 + b / 16) / 16 = a := by omega
    have hy : (a % 4 * 16 + b / 16) % 16 * 16 + b % 16 * 4 / 4 = b := by omega
    rw [hx, hy]
  | a :: b :: c :: rest, h => by
    have ha : a < 256 := h a (by simp)
    have hb : b < 256 := h b (by simp)
    have hc : c < 256 := h c (by simp)
    have ih := b64_roundtrip rest (fun x hx => h x (by simp [hx]))
    simp only [b64Encode, b64Decode, dec_enc (a / 4) (by omega),
      dec_enc (a % 4 * 16 + b / 16) (by omega),
      dec_enc (b % 16 * 4 + c / 64) (by omega), dec_enc (c % 64) (by omega),
      enc_ne_pad (b % 16 * 4 + c / 64) (by omega),
      enc_ne_pad (c % 64) (by omega), ih, and_self, ite_true, ite_false]
    have hx : a / 4 * 4 + (a % 4 * 16 + b / 16) / 16 = a := by omega
    have hy : (a % 4 * 16 + b / 16) % 16 * 16 + (b % 16 * 4 + c / 64) / 4 = b := by omega
    have hz : (b % 16 * 4 + c / 64) % 4 * 64 + c % 64 = c := by omega
    rw [hx, hy, hz]

theorem gzip_roundtrip (bs : List Nat) : gzipDecompress (gzipCompress bs) = some bs := by
  rw [gzipCompress, gzipDecompress, if_pos] <;> rfl

theorem gzip_fail_of_not_magic (bs : List Nat) (h : bs.take 2 ≠ gzipMagic) :
    gzipDecompress bs = none := by
  rw [gzipDecompress, if_neg h]

theorem isSubstring_of_isPrefixOf (sub l : List Char) (h : sub.isPrefixOf l = true) :
    isSubstring sub l = true := by
  cases l with
  | nil =>
    cases sub with
    | nil => rfl
    | cons a r => simp [List.isPrefixOf] at h
  | cons c rest =>
    show (sub.isPrefixOf (c :: rest) || isSubstring sub rest) = true
    rw [h, Bool.true_or]

theorem isSubstring_append (sub pfx sfx : List Char) :
    isSubstring sub (pfx ++ (sub ++ sfx)) = true := by
  induction pfx with
  | nil =>
    rw [List.nil_append]
    refine isSubstring_of_isPrefixOf _ _ ?_
    rw [List.isPrefixOf_iff_prefix]
    exact List.prefix_append sub sfx
  | cons p ps ih =>
    rw [List.cons_append]
    show (sub.isPrefixOf (p :: (ps ++ (sub ++ sfx))) || isSubstring sub (ps ++ (sub ++ sfx)))
      = true
    rw [ih, Bool.or_true]

theorem dedup_primeira_aux_spec (l : List String) : ∀ vistos : List String,
    (dedup_primeira_aux vistos l).Nodup
      ∧ ∀ k, k ∈ dedup_primeira_aux vistos l ↔ (k ∈ l ∧ k ∉ vistos) := by
  induction l with
  | nil => intro vistos; simp [dedup_primeira_aux]
  | cons x xs ih =>
    intro vistos
    rw [dedup_primeira_aux]
    by_cases hx : x ∈ vistos
    · rw [if_pos hx]
      refine ⟨(ih vistos).1, fun k => ?_⟩
      rw [(ih vistos).2 k]
      constructor
      · rintro ⟨h1, h2⟩; exact ⟨List.mem_cons_of_mem _ h1, h2⟩
      · rintro ⟨h1, h2⟩
        rcases List.mem_cons.mp h1 with rfl | h1
        · exact absurd hx h2
        · exact ⟨h1, h2⟩
    · rw [if_neg hx]
      have hm := (ih (x :: vistos)).2
      refine ⟨List.nodup_cons.mpr ⟨fun hc => ?_, (ih (x :: vistos)).1⟩, fun k => ?_⟩
      · exact ((hm x).mp hc).2 (List.mem_cons_self x vistos)
      · rw [List.mem_cons, hm k]
        constructor
        · rintro (rfl | ⟨h1, h2⟩)
          · exact ⟨List.mem_cons_self _ _, hx⟩
          · exact ⟨List.mem_cons_of_mem _ h1, fun hk => h2 (List.mem_cons_of_mem _ hk)⟩
        · rintro ⟨h1, h2⟩
          rcases List.mem_cons.mp h1 with rfl | h1
          · exact Or.inl rfl
          · by_cases hkx : k = x
            · exact Or.inl hkx
            · refine Or.inr ⟨h1, fun hk => ?_⟩
              rcases List.mem_cons.mp hk with h | h
              · exact hkx h
              · exact h2 h

theorem pySetOk_dedup_primeira : pySetOk dedup_primeira := by
  intro l
  have h := dedup_primeira_aux_spec l []
  refine ⟨h.1, fun k => ?_⟩
  rw [dedup_primeira, h.2 k]
  simp

theorem pySetOk_pySet_reverso : pySetOk pySet_reverso := by
  intro l
  have h := pySetOk_dedup_primeira l
  refine ⟨List.nodup_reverse.mpr h.1, fun k => ?_⟩
  rw [pySet_reverso, List.mem_reverse]
  exact h.2 k

end Py

/-! ## Helper lemmas about the embedded `app.py` -/

theorem processar_chaves_length (parseXml : String → Option Xml)
    (lookup : String → Option String) : ∀ chaves : List String,
    (AppPy.processar_chaves parseXml lookup chaves).1.length
      + (AppPy.processar_chaves parseXml lookup chaves).2 = chaves.length := by
  intro chaves
  induction chaves with
  | nil => rfl
  | cons ch resto ih =>
    rw [AppPy.processar_chaves]
    cases hr : AppPy.resultado_chave parseXml lookup ch with
    | some info =>
      simp only [List.length_cons]
      omega
    | none =>
      simp only [List.length_cons]
      omega

theorem resultado_chave_none_iff (parseXml : String → Option Xml)
    (lookup : String → Option String) (ch : String)
    (h : ∃ raw, lookup ch = some raw ∧ raw ≠ ""
      ∧ ∀ root, parseXml raw = some root → vnfOkB root = true) :
    (AppPy.resultado_chave parseXml lookup ch = none
      ↔ docMalformadoB parseXml lookup ch = true) := by
  obtain ⟨raw, hl, hne, hok⟩ := h
  simp only [AppPy.resultado_chave, hl, if_neg hne, docMalformadoB]
  cases hp : parseXml raw with
  | none => simp [AppPy.extrair_info_nfe, hp]
  | some root =>
    have hv := hok root hp
    rw [AppPy.extrair_info_nfe, hp]
    simp only [Option.isNone_some, Bool.false_eq_true, iff_false]
    rw [vnfOkB] at hv
    cases hf : root.find? (ns "vNF") with
    | none => simp [hf]
    | some v =>
      simp only [hf] at hv
      cases ht : v.text with
      | none => simp only [ht] at hv; cases hv
      | some t =>
        simp only [ht] at hv
        cases hq : Py.pyFloat t with
        | none => rw [hq] at hv; exact absurd hv (by simp)
        | some q => simp [ht, hq]

theorem processar_chaves_counts (parseXml : String → Option Xml)
    (lookup : String → Option String) (chaves : List String)
    (h : ∀ ch ∈ chaves, ∃ raw, lookup ch = some raw ∧ raw ≠ ""
      ∧ ∀ root, parseXml raw = some root → vnfOkB root = true) :
    (AppPy.processar_chaves parseXml lookup chaves).2
      = chaves.countP (docMalformadoB parseXml lookup) := by
  induction chaves with
  | nil => rfl
  | cons ch resto ih =>
    have hch := h ch (List.mem_cons_self _ _)
    have hresto := ih (fun c hc => h c (List.mem_cons_of_mem _ hc))
    have hiff := resultado_chave_none_iff parseXml lookup ch hch
    rw [AppPy.processar_chaves, List.countP_cons]
    cases hr : AppPy.resultado_chave parseXml lookup ch with
    | some info =>
      have hm : docMalformadoB parseXml lookup ch = false := by
        cases hmal : docMalformadoB parseXml lookup ch with
        | false => rfl
        | true => rw [hiff.mpr hmal] at hr; cases hr
      simp only [hm, hresto]
      simp
    | none =>
      have hm : docMalformadoB parseXml lookup ch = true := hiff.mp hr
      simp only [hm, hresto]
      simp

/-! ## Claims -/

/-- Claim C1, counterexample: for input records with emission dates
2025-08-31, 2025-09-01, 2025-09-30 and 2025-10-01 and requested range
[2025-09-01, 2025-09-30], the result of `app.py`'s download loop and
response construction contains all four records — including the two
outside the range — not just the middle two: no date filtering exists. -/
theorem C1_counterexample :
    (AppPy.montar_resposta pX1 lookup1 ["k1", "k2", "k3", "k4"]
        "2025-09-01" "2025-09-30" "58521876000163").notas.map (fun n => n.dataEmissao)
      = [some "2025-08-31T10:00:00-03:00", some "2025-09-01T10:00:00-03:00",
         some "2025-09-30T10:00:00-03:00", some "2025-10-01T10:00:00-03:00"]
    ∧ (AppPy.montar_resposta pX1 lookup1 ["k1", "k2", "k3", "k4"]
        "2025-09-01" "2025-09-30" "58521876000163").notas.length = 4 := by
  exact ⟨by decide, by decide⟩

/-- Claim C1 (amended): `app.py` applies no date filtering at all: for a
non-empty key list, the returned records are exactly the successfully
downloaded and extracted ones, in enumeration order, and the record list
is independent of the requested date range (the dates reach only the
human-readable text fields). -/
theorem C1_no_date_filter (parseXml : String → Option Xml)
    (lookup : String → Option String) (chaves : List String)
    (d1 d2 d1' d2' c : String) (h : chaves ≠ []) :
    (AppPy.montar_resposta parseXml lookup chaves d1 d2 c).notas
      = (AppPy.processar_chaves parseXml lookup chaves).1
    ∧ (AppPy.montar_resposta parseXml lookup chaves d1 d2 c).notas
      = (AppPy.montar_resposta parseXml lookup chaves d1' d2' c).notas := by
  cases chaves with
  | nil => exact absurd rfl h
  | cons a l => exact ⟨rfl, rfl⟩

/-- Witness for C1 (amended) at the four-record fixture. -/
theorem C1_no_date_filter_witness :
    (AppPy.montar_resposta pX1 lookup1 ["k1", "k2", "k3", "k4"]
        "2025-09-01" "2025-09-30" "w").notas
      = (AppPy.processar_chaves pX1 lookup1 ["k1", "k2", "k3", "k4"]).1
    ∧ (AppPy.montar_resposta pX1 lookup1 ["k1", "k2", "k3", "k4"]
        "2025-09-01" "2025-09-30" "w").notas
      = (AppPy.montar_resposta pX1 lookup1 ["k1", "k2", "k3", "k4"]
          "2024-01-01" "2024-12-31" "w").notas :=
  C1_no_date_filter pX1 lookup1 ["k1", "k2", "k3", "k4"] "2025-09-01" "2025-09-30"
    "2024-01-01" "2024-12-31" "w" (by decide)

/-- Claim C2, counterexample: deduplication in
`extrair_chaves_manifestacao` is `list(set(chaves))`, whose enumeration
order is unspecified; both `Py.dedup_primeira` (input order) and
`Py.pySet_reverso` (reversed) are admissible set enumerations
(`Py.pySetOk`), and on the same response listing `chave_w3e`,
`chave_outra`, `chave_w3e` they produce different outputs, one of which
is not in first-occurrence input order.  So the code's deduplication is
neither order-preserving nor deterministic across runs. -/
theorem C2_counterexample :
    Py.pySetOk Py.dedup_primeira ∧ Py.pySetOk Py.pySet_reverso
    ∧ AppPy.coletar_chaves pX2 raiz_resposta_dupla = [chave_w3e, chave_outra, chave_w3e]
    ∧ AppPy.extrair_chaves_manifestacao Py.dedup_primeira pX2 "respDupla"
        = [chave_w3e, chave_outra]
    ∧ AppPy.extrair_chaves_manifestacao Py.pySet_reverso pX2 "respDupla"
        = [chave_outra, chave_w3e]
    ∧ ([chave_outra, chave_w3e] : List String) ≠ [chave_w3e, chave_outra] :=
  ⟨Py.pySetOk_dedup_primeira, Py.pySetOk_pySet_reverso, by decide, by decide, by decide,
    by decide⟩

/-- Claim C2 (amended): whatever enumeration order the set produces, the
aggregated key list contains each collected key exactly once (no
duplicates, no losses); order and run-to-run reproducibility are not
guaranteed. -/
theorem C2_unique_keys (f : List String → List String) (parseXml : String → Option Xml)
    (raw : String) (root : Xml) (hf : Py.pySetOk f) (hroot : parseXml raw = some root) :
    ∀ k ∈ AppPy.coletar_chaves parseXml root,
      (AppPy.extrair_chaves_manifestacao f parseXml raw).count k = 1 := by
  intro k hk
  simp only [AppPy.extrair_chaves_manifestacao, hroot]
  exact List.count_eq_one_of_mem (hf _).1 (((hf _).2 k).mpr hk)

/-- Witness for C2 (amended) on the duplicate-key response. -/
theorem C2_unique_keys_witness :
    (AppPy.extrair_chaves_manifestacao Py.dedup_primeira pX2 "respDupla").count chave_w3e
      = 1 :=
  C2_unique_keys Py.dedup_primeira pX2 "respDupla" raiz_resposta_dupla
    Py.pySetOk_dedup_primeira rfl chave_w3e (by decide)

/-- Claim C3, counterexample: a network failure during enumeration does
not produce a result tagged unsuccessful — `consultar_manifestacao_destinatario`
returns `[]` and the endpoint answers `success = true` with zero records,
indistinguishable from "no documents found". -/
theorem C3_counterexample :
    AppPy.consultar_manifestacao_destinatario Py.dedup_primeira pXnone "58521876000163"
        "2025-09-01" "2025-09-30" "AN" .falhaRede = []
    ∧ AppPy.respSuccess (AppPy.consultar_notas_recebidas Py.dedup_primeira pXnone lookupNone
        "58521876000163" "2025-09-01" "2025-09-30" "AN" .falhaRede) = some true
    ∧ AppPy.respNotasLen (AppPy.consultar_notas_recebidas Py.dedup_primeira pXnone lookupNone
        "58521876000163" "2025-09-01" "2025-09-30" "AN" .falhaRede) = some 0 := by
  exact ⟨by decide, by decide, by decide⟩

/-- Claim C3 (amended): every enumeration failure — network error,
non-200 status, unparseable body — makes `consultar_manifestacao_destinatario`
return the empty key list, and the endpoint then returns a response with
`success = true`, no records and a zero error counter; no unsuccessful
tag or error indicator is produced. -/
theorem C3_failure_empty_success (pySet : List String → List String)
    (parseXml : String → Option Xml) (lookup : String → Option String)
    (cnpj d1 d2 est corpo : String) (status : Nat) (hs : status ≠ 200) :
    AppPy.consultar_manifestacao_destinatario pySet parseXml cnpj d1 d2 est .falhaRede = []
    ∧ AppPy.consultar_manifestacao_destinatario pySet parseXml cnpj d1 d2 est
        (.resposta status corpo) = []
    ∧ (parseXml corpo = none →
        AppPy.consultar_manifestacao_destinatario pySet parseXml cnpj d1 d2 est
          (.resposta 200 corpo) = [])
    ∧ (AppPy.montar_resposta parseXml lookup [] d1 d2 cnpj).success = true
    ∧ (AppPy.montar_resposta parseXml lookup [] d1 d2 cnpj).notas = []
    ∧ (AppPy.montar_resposta parseXml lookup [] d1 d2 cnpj).totalErros = 0 := by
  refine ⟨?_, ?_, fun hpc => ?_, rfl, rfl, rfl⟩
  · rw [AppPy.consultar_manifestacao_destinatario]
    by_cases hd : (Py.strptimeYmd d1).isNone ∨ (Py.strptimeYmd d2).isNone
    · rw [if_pos hd]
    · rw [if_neg hd]
  · rw [AppPy.consultar_manifestacao_destinatario]
    by_cases hd : (Py.strptimeYmd d1).isNone ∨ (Py.strptimeYmd d2).isNone
    · rw [if_pos hd]
    · rw [if_neg hd]
      show (if status ≠ 200 then ([] : List String)
        else AppPy.extrair_chaves_manifestacao pySet parseXml corpo) = []
      rw [if_pos hs]
  · rw [AppPy.consultar_manifestacao_destinatario]
    by_cases hd : (Py.strptimeYmd d1).isNone ∨ (Py.strptimeYmd d2).isNone
    · rw [if_pos hd]
    · rw [if_neg hd]
      show (if (200 : Nat) ≠ 200 then ([] : List String)
        else AppPy.extrair_chaves_manifestacao pySet parseXml corpo) = []
      rw [if_neg (by omega)]
      simp only [AppPy.extrair_chaves_manifestacao, hpc]

/-- Witness for C3 (amended) at a concrete failing transport. -/
theorem C3_failure_empty_success_witness :
    AppPy.consultar_manifestacao_destinatario Py.dedup_primeira pXnone "58521876000163"
        "2025-09-01" "2025-09-30" "AN" .falhaRede = []
    ∧ AppPy.consultar_manifestacao_destinatario Py.dedup_primeira pXnone "58521876000163"
        "2025-09-01" "2025-09-30" "AN" (.resposta 500 "erro interno") = []
    ∧ (pXnone "erro interno" = none →
        AppPy.consultar_manifestacao_destinatario Py.dedup_primeira pXnone "58521876000163"
          "2025-09-01" "2025-09-30" "AN" (.resposta 200 "erro interno") = [])
    ∧ (AppPy.montar_resposta pXnone lookupNone [] "2025-09-01" "2025-09-30"
        "58521876000163").success = true
    ∧ (AppPy.montar_resposta pXnone lookupNone [] "2025-09-01" "2025-09-30"
        "58521876000163").notas = []
    ∧ (AppPy.montar_resposta pXnone lookupNone [] "2025-09-01" "2025-09-30"
        "58521876000163").totalErros = 0 :=
  C3_failure_empty_success Py.dedup_primeira pXnone lookupNone "58521876000163"
    "2025-09-01" "2025-09-30" "AN" "erro interno" 500 (by omega)

/-- Claim C4, counterexample: a 14-character identifier containing no
digit at all passes validation and the request proceeds (returning a
success response), although it does not reduce to 14 digits — the code
checks only the cleaned length, never digit-ness. -/
theorem C4_counterexample :
    AppPy.respSuccess (AppPy.consultar_notas_recebidas Py.dedup_primeira pXnone lookupNone
        "ABCDEFGHIJKLMN" "2025-09-01" "2025-09-30" "AN" .falhaRede) = some true
    ∧ (AppPy.limpar_cnpj "ABCDEFGHIJKLMN").data.all Char.isDigit = false
    ∧ (AppPy.limpar_cnpj "ABCDEFGHIJKLMN").length = 14 := by
  exact ⟨by decide, by decide, by decide⟩

/-- Claim C4 (amended): the request is rejected (HTTP 400, before any
certificate or network step) exactly when the identifier is empty or its
cleaned form has length other than 14 — the characters are not required
to be digits; when accepted, the cleaned value passed onward is the
original string with `.`, `/`, `-` removed, in original character order
(a sublist of the input). -/
theorem C4_length_only_validation (pySet : List String → List String)
    (parseXml : String → Option Xml) (lookup : String → Option String)
    (cnpj d1 d2 est : String) (t : AppPy.Transporte) :
    ((cnpj = "" ∨ (AppPy.limpar_cnpj cnpj).length ≠ 14) →
      AppPy.consultar_notas_recebidas pySet parseXml lookup cnpj d1 d2 est t
        = .error { status := 400, detail := "CNPJ inválido" })
    ∧ ((AppPy.limpar_cnpj cnpj).length = 14 ∧ cnpj ≠ "" →
      AppPy.consultar_notas_recebidas pySet parseXml lookup cnpj d1 d2 est t
        = .ok (AppPy.montar_resposta parseXml lookup
            (AppPy.consultar_manifestacao_destinatario pySet parseXml
              (AppPy.limpar_cnpj cnpj) d1 d2 est t)
            d1 d2 (AppPy.limpar_cnpj cnpj)))
    ∧ (AppPy.limpar_cnpj cnpj).data.Sublist cnpj.data := by
  refine ⟨fun h => ?_, fun h => ?_, ?_⟩
  · rw [AppPy.consultar_notas_recebidas, if_pos h]
  · rw [AppPy.consultar_notas_recebidas, if_neg (by tauto)]
  · exact ((List.filter_sublist _).trans (List.filter_sublist _)).trans
      (List.filter_sublist _)

/-- Witness for C4 (amended) at a punctuated valid identifier. -/
theorem C4_length_only_validation_witness :
    AppPy.consultar_notas_recebidas Py.dedup_primeira pXnone lookupNone
        "12.345.678/0001-95" "2025-09-01" "2025-09-30" "AN" .falhaRede
      = .ok (AppPy.montar_resposta pXnone lookupNone
          (AppPy.consultar_manifestacao_destinatario Py.dedup_primeira pXnone
            (AppPy.limpar_cnpj "12.345.678/0001-95") "2025-09-01" "2025-09-30" "AN"
            .falhaRede)
          "2025-09-01" "2025-09-30" (AppPy.limpar_cnpj "12.345.678/0001-95"))
    ∧ (AppPy.limpar_cnpj "12.345.678/0001-95").data.Sublist "12.345.678/0001-95".data :=
  ⟨(C4_length_only_validation Py.dedup_primeira pXnone lookupNone "12.345.678/0001-95"
      "2025-09-01" "2025-09-30" "AN" .falhaRede).2.1 ⟨by decide, by decide⟩,
    (C4_length_only_validation Py.dedup_primeira pXnone lookupNone "12.345.678/0001-95"
      "2025-09-01" "2025-09-30" "AN" .falhaRede).2.2⟩

/-- Claim C5: the batch decoder round-trips.  For any XML text (any text
whose UTF-8 bytes do not begin with the gzip magic, as an XML document
starting with `<` cannot), decoding `base64(gzip(text))` through the
docZip decoding steps yields exactly the text, and decoding
`base64(text)` of an uncompressed payload also yields exactly the text
via the decompression-failure fallback path. -/
theorem C5_batch_decoder_roundtrip (s : String)
    (h : (Py.utf8Encode s).take 2 ≠ Py.gzipMagic) :
    AppPy.decodificar_docZip ⟨Py.b64Encode (Py.gzipCompress (Py.utf8Encode s))⟩ = some s
    ∧ AppPy.decodificar_docZip ⟨Py.b64Encode (Py.utf8Encode s)⟩ = some s := by
  have hbound : ∀ x ∈ Py.gzipCompress (Py.utf8Encode s), x < 256 := by
    intro x hx
    rw [Py.gzipCompress, List.mem_append] at hx
    rcases hx with hx | hx
    · simp [Py.gzipMagic] at hx
      omega
    · exact Py.utf8Encode_lt_256 s x hx
  constructor
  · have hb : Py.b64Decode (Py.b64Encode (Py.gzipCompress (Py.utf8Encode s)))
        = some (Py.gzipCompress (Py.utf8Encode s)) := Py.b64_roundtrip _ hbound
    simp only [AppPy.decodificar_docZip, hb, AppPy.conteudo_xml_de, Py.gzip_roundtrip,
      Py.utf8_roundtrip]
  · have hb : Py.b64Decode (Py.b64Encode (Py.utf8Encode s))
        = some (Py.utf8Encode s) := Py.b64_roundtrip _ (Py.utf8Encode_lt_256 s)
    simp only [AppPy.decodificar_docZip, hb, AppPy.conteudo_xml_de,
      Py.gzip_fail_of_not_magic _ h, Py.utf8_roundtrip]

/-- Witness for C5 at a concrete XML text. -/
theorem C5_batch_decoder_roundtrip_witness :
    AppPy.decodificar_docZip ⟨Py.b64Encode (Py.gzipCompress (Py.utf8Encode "<a/>"))⟩
      = some "<a/>"
    ∧ AppPy.decodificar_docZip ⟨Py.b64Encode (Py.utf8Encode "<a/>")⟩ = some "<a/>" :=
  C5_batch_decoder_roundtrip "<a/>" (by decide)

/-- Claim C6, counterexample: a batch with N = 1 entry and M = 0
XML-parse failures in which the extractor nevertheless returns null and
the error counter is 1: the document parses but its total-value element
holds non-numeric text, so `float()` raises inside `extrair_info_nfe`.
Parse failure is not the only way a document is dropped. -/
theorem C6_counterexample :
    (pX6 "ruim").isSome = true
    ∧ AppPy.extrair_info_nfe pX6 "ruim" "K" = none
    ∧ (AppPy.processar_chaves pX6 lookup6 ["K"]).1.length = 0
    ∧ (AppPy.processar_chaves pX6 lookup6 ["K"]).2 = 1 := by
  exact ⟨by decide, by decide, by decide, by decide⟩

/-- Claim C6 (amended): for a batch in which every key's document
downloads non-empty and, whenever it parses, carries an absent or numeric
total-value element, the loop yields exactly N − M non-null records and
an error counter of M, where M counts the documents that fail XML
parsing; the session still answers `success = true`. -/
theorem C6_partial_failure (parseXml : String → Option Xml)
    (lookup : String → Option String) (chaves : List String) (d1 d2 c : String)
    (h : ∀ ch ∈ chaves, ∃ raw, lookup ch = some raw ∧ raw ≠ ""
      ∧ ∀ root, parseXml raw = some root → vnfOkB root = true) :
    (AppPy.processar_chaves parseXml lookup chaves).2
      = chaves.countP (docMalformadoB parseXml lookup)
    ∧ (AppPy.processar_chaves parseXml lookup chaves).1.length
      = chaves.length - chaves.countP (docMalformadoB parseXml lookup)
    ∧ (AppPy.montar_resposta parseXml lookup chaves d1 d2 c).success = true := by
  have h1 := processar_chaves_counts parseXml lookup chaves h
  have h2 := processar_chaves_length parseXml lookup chaves
  refine ⟨h1, by omega, ?_⟩
  cases chaves with
  | nil => rfl
  | cons a l => rfl

/-- Witness for C6 (amended): a two-entry batch with one unparseable and
one well-formed document. -/
theorem C6_partial_failure_witness :
    (AppPy.processar_chaves pX6 lookup6b ["a", "b"]).2
      = (["a", "b"] : List String).countP (docMalformadoB pX6 lookup6b)
    ∧ (AppPy.processar_chaves pX6 lookup6b ["a", "b"]).1.length
      = (["a", "b"] : List String).length
        - (["a", "b"] : List String).countP (docMalformadoB pX6 lookup6b)
    ∧ (AppPy.montar_resposta pX6 lookup6b ["a", "b"] "2025-09-01" "2025-09-30"
        "w").success = true := by
  refine C6_partial_failure pX6 lookup6b ["a", "b"] "2025-09-01" "2025-09-30" "w" ?_
  intro ch hch
  simp only [List.mem_cons, List.not_mem_nil, or_false] at hch
  rcases hch with rfl | rfl
  · refine ⟨"naoparse", rfl, by decide, fun root hr => ?_⟩
    rw [show pX6 "naoparse" = (none : Option Xml) from rfl] at hr
    exact Option.noConfusion hr
  · refine ⟨"bom", rfl, by decide, fun root hr => ?_⟩
    rw [show pX6 "bom" = some (docDe "2025-09-02T10:00:00-03:00") from rfl] at hr
    injection hr with h3
    rw [← h3]
    decide

/-- Claim C7, counterexample: in `app.py` a start date not of the form
YYYY-MM-DD is not rejected with a validation error; the endpoint still
answers `success = true` with zero records — the malformed date is
silently treated as an empty result. -/
theorem C7_counterexample :
    Py.strptimeYmd "2025/09/01" = none
    ∧ AppPy.respSuccess (AppPy.consultar_notas_recebidas Py.dedup_primeira pXnone lookupNone
        "58521876000163" "2025/09/01" "2025-09-30" "AN" (.resposta 200 "corpo"))
      = some true
    ∧ AppPy.respNotasLen (AppPy.consultar_notas_recebidas Py.dedup_primeira pXnone lookupNone
        "58521876000163" "2025/09/01" "2025-09-30" "AN" (.resposta 200 "corpo"))
      = some 0 := by
  exact ⟨by decide, by decide, by decide⟩

/-- Claim C7 (amended): only the `app_v2.py` variant rejects a malformed
date with an HTTP 400 validation error before proceeding; in `app.py`
(and likewise `app_corrigido.py`, which never parses the dates) the same
input yields a normal `success = true` response with zero records. -/
theorem C7_date_validation_variants (pySet : List String → List String)
    (parseXml : String → Option Xml) (lookup : String → Option String)
    (cnpj d1 d2 est : String) (t : AppPy.Transporte)
    (hc : ¬(cnpj = "" ∨ (AppPy.limpar_cnpj cnpj).length ≠ 14))
    (hd : (Py.strptimeYmd d1).isNone = true) :
    AppV2.validacao cnpj d1 d2
      = some { status := 400, detail := "Formato de data inválido. Use YYYY-MM-DD" }
    ∧ AppPy.respSuccess (AppPy.consultar_notas_recebidas pySet parseXml lookup
        cnpj d1 d2 est t) = some true
    ∧ AppPy.respNotasLen (AppPy.consultar_notas_recebidas pySet parseXml lookup
        cnpj d1 d2 est t) = some 0 := by
  have henum : AppPy.consultar_manifestacao_destinatario pySet parseXml
      (AppPy.limpar_cnpj cnpj) d1 d2 est t = [] := by
    cases t with
    | falhaRede =>
      rw [AppPy.consultar_manifestacao_destinatario, if_pos (Or.inl hd)]
    | resposta status corpo =>
      rw [AppPy.consultar_manifestacao_destinatario, if_pos (Or.inl hd)]
  have hmain : AppPy.consultar_notas_recebidas pySet parseXml lookup cnpj d1 d2 est t
      = .ok (AppPy.montar_resposta parseXml lookup [] d1 d2 (AppPy.limpar_cnpj cnpj)) := by
    simp only [AppPy.consultar_notas_recebidas, if_neg hc, henum]
  refine ⟨?_, ?_, ?_⟩
  · rw [AppV2.validacao, if_neg hc, if_pos (Or.inl hd)]
  · rw [hmain]; rfl
  · rw [hmain]; rfl

/-- Witness for C7 (amended) at a slash-separated date. -/
theorem C7_date_validation_variants_witness :
    AppV2.validacao "58521876000163" "2025/09/01" "2025-09-30"
      = some { status := 400, detail := "Formato de data inválido. Use YYYY-MM-DD" }
    ∧ AppPy.respSuccess (AppPy.consultar_notas_recebidas Py.dedup_primeira pXnone lookupNone
        "58521876000163" "2025/09/01" "2025-09-30" "AN" (.resposta 200 "corpo"))
      = some true
    ∧ AppPy.respNotasLen (AppPy.consultar_notas_recebidas Py.dedup_primeira pXnone lookupNone
        "58521876000163" "2025/09/01" "2025-09-30" "AN" (.resposta 200 "corpo"))
      = some 0 :=
  C7_date_validation_variants Py.dedup_primeira pXnone lookupNone "58521876000163"
    "2025/09/01" "2025-09-30" "AN" (.resposta 200 "corpo") (by decide) (by decide)

set_option maxRecDepth 4000 in
/-- Claim C8, counterexample: on a response whose pagination fields say
more data remains (ultNSU 10 below maxNSU 50), the enumeration still
issues exactly one request, whose cursor is the hardcoded NSU 0 — no
repeat request with an advanced cursor is ever sent. -/
theorem C8_counterexample :
    (AppPy.consultar_manifestacao_requisicoes "58521876000163" "AN"
        (.resposta 200 corpo_mais_dados)).length = 1
    ∧ Py.pyContains corpo_mais_dados "<ultNSU>000000000000010</ultNSU>" = true
    ∧ Py.pyContains corpo_mais_dados "<maxNSU>000000000000050</maxNSU>" = true
    ∧ Py.pyContains (AppPy.montar_xml_consulta (AppPy.codigo_uf "AN") "58521876000163")
        "<NSU>000000000000000</NSU>" = true := by
  exact ⟨rfl, by decide, by decide, by decide⟩

/-- Claim C8 (amended): the session's cursor is the constant 0: every
call sends exactly one enumeration request, whose body carries the
literal `<NSU>000000000000000</NSU>`, regardless of what the response
says; there is no pagination loop and no cursor advancement. -/
theorem C8_single_request (cnpj est : String) (t : AppPy.Transporte) :
    AppPy.consultar_manifestacao_requisicoes cnpj est t
      = [AppPy.montar_xml_consulta (AppPy.codigo_uf est) cnpj]
    ∧ (∃ aa bb : List Char, (AppPy.montar_xml_consulta (AppPy.codigo_uf est) cnpj).data
        = aa ++ (AppPy.nsu_inicial.data ++ bb))
    ∧ Py.pyContains (AppPy.montar_xml_consulta (AppPy.codigo_uf est) cnpj)
        AppPy.nsu_inicial = true := by
  have hdecomp : (AppPy.montar_xml_consulta (AppPy.codigo_uf est) cnpj).data
      = (AppPy.xml_consulta_parte1 ++ AppPy.codigo_uf est ++ AppPy.xml_consulta_parte2
          ++ cnpj ++ AppPy.xml_consulta_parte3).data
        ++ (AppPy.nsu_inicial.data ++ AppPy.xml_consulta_parte4.data) := by
    simp only [AppPy.montar_xml_consulta, String.data_append, List.append_assoc]
  refine ⟨rfl, ⟨_, _, hdecomp⟩, ?_⟩
  rw [Py.pyContains, hdecomp]
  exact Py.isSubstring_append _ _ _

/-- Claim C9: in `app_corrigido.py` the enumeration returns the single
hardcoded key exactly for taxpayer 58521876000163 with a start date
containing "2025-09" (and the empty list for every other input), and the
lookup returns the fixed canned invoice XML exactly for that key (and
null for every other key); both functions are pure — no transport oracle
appears in their embedding, mirroring the absence of any network call in
the source. -/
theorem C9_hardcoded_simulation (cnpj d1 d2 cp kp est ch : String) :
    (AppCorrigido.consultar_manifestacao_destinatario cnpj d1 d2 cp kp est = [chave_w3e]
      ↔ (cnpj = "58521876000163" ∧ Py.pyContains d1 "2025-09" = true))
    ∧ (AppCorrigido.consultar_manifestacao_destinatario cnpj d1 d2 cp kp est = []
      ↔ ¬(cnpj = "58521876000163" ∧ Py.pyContains d1 "2025-09" = true))
    ∧ (AppCorrigido.consultar_nfe_por_chave ch cp kp est
        = some (AppCorrigido.xml_simulado ch) ↔ ch = chave_w3e)
    ∧ (AppCorrigido.consultar_nfe_por_chave ch cp kp est = none ↔ ch ≠ chave_w3e) := by
  refine ⟨?_, ?_, ?_, ?_⟩
  · rw [AppCorrigido.consultar_manifestacao_destinatario]
    by_cases h1 : cnpj = "58521876000163" ∧ Py.pyContains d1 "2025-09" = true
    · rw [if_pos h1]
      exact iff_of_true rfl h1
    · rw [if_neg h1]
      constructor
      · intro he
        exact absurd he (by simp)
      · intro hcond
        exact absurd hcond h1
  · rw [AppCorrigido.consultar_manifestacao_destinatario]
    by_cases h1 : cnpj = "58521876000163" ∧ Py.pyContains d1 "2025-09" = true
    · rw [if_pos h1]
      constructor
      · intro he
        exact absurd he (by simp)
      · intro hn
        exact absurd h1 hn
    · rw [if_neg h1]
      exact iff_of_true rfl h1
  · rw [AppCorrigido.consultar_nfe_por_chave]
    by_cases h2 : ch = chave_w3e
    · rw [if_pos h2]
      exact iff_of_true rfl h2
    · rw [if_neg h2]
      constructor
      · intro he
        exact absurd he (by simp)
      · intro heq
        exact absurd heq h2
  · rw [AppCorrigido.consultar_nfe_por_chave]
    by_cases h2 : ch = chave_w3e
    · rw [if_pos h2]
      constructor
      · intro he
        exact absurd he (by simp)
      · intro hn
        exact absurd h2 hn
    · rw [if_neg h2]
      exact iff_of_true rfl h2

/-- Claim C10: whenever the enumeration is non-empty, the response built
by `app.py` satisfies totalConsultado = totalSalvo + totalErros, with
totalSalvo the number of returned records (each key contributes exactly
one record or one error, never both, never neither). -/
theorem C10_counters (parseXml : String → Option Xml) (lookup : String → Option String)
    (chaves : List String) (d1 d2 c : String) (h : chaves ≠ []) :
    (AppPy.montar_resposta parseXml lookup chaves d1 d2 c).totalConsultado
      = (AppPy.montar_resposta parseXml lookup chaves d1 d2 c).totalSalvo
        + (AppPy.montar_resposta parseXml lookup chaves d1 d2 c).totalErros
    ∧ (AppPy.montar_resposta parseXml lookup chaves d1 d2 c).totalSalvo
      = (AppPy.montar_resposta parseXml lookup chaves d1 d2 c).notas.length
    ∧ (AppPy.montar_resposta parseXml lookup chaves d1 d2 c).success = true := by
  cases chaves with
  | nil => exact absurd rfl h
  | cons a l =>
    have hlen := processar_chaves_length parseXml lookup (a :: l)
    refine ⟨?_, rfl, rfl⟩
    show (a :: l).length = (AppPy.processar_chaves parseXml lookup (a :: l)).1.length
      + (AppPy.processar_chaves parseXml lookup (a :: l)).2
    omega

/-- Witness for C10 at a two-key fixture with one failing download. -/
theorem C10_counters_witness :
    (AppPy.montar_resposta pX1 lookup1 ["k1", "nope"] "2025-09-01" "2025-09-30"
        "w").totalConsultado
      = (AppPy.montar_resposta pX1 lookup1 ["k1", "nope"] "2025-09-01" "2025-09-30"
          "w").totalSalvo
        + (AppPy.montar_resposta pX1 lookup1 ["k1", "nope"] "2025-09-01" "2025-09-30"
            "w").totalErros
    ∧ (AppPy.montar_resposta pX1 lookup1 ["k1", "nope"] "2025-09-01" "2025-09-30"
        "w").totalSalvo
      = (AppPy.montar_resposta pX1 lookup1 ["k1", "nope"] "2025-09-01" "2025-09-30"
          "w").notas.length
    ∧ (AppPy.montar_resposta pX1 lookup1 ["k1", "nope"] "2025-09-01" "2025-09-30"
        "w").success = true :=
  C10_counters pX1 lookup1 ["k1", "nope"] "2025-09-01" "2025-09-30" "w" (by decide)
